import Mathlib

/-
Verification of the debugger control layer in rpcs3qt/debugger_frame.cpp.

The file shallowly embeds the stepping state machine, the run/pause toggle,
the step-over breakpoint bookkeeping, unit resolution (get_cpu), the unit
list refresh (UpdateUnitList), unit selection (OnSelectUnit), the address
expression evaluator (EvaluateExpression) and the next-instruction
navigation (the Key_N handler).  Machine integers are Nat with explicit
reduction modulo 2^32 where the source uses u32 arithmetic; fallible
operations return Option.
-/

namespace DebuggerFrame

/-- The cpu_flag bits manipulated by debugger_frame, as a record of Booleans
(the source holds them in an atomic bitset `bs_t<cpu_flag>`). -/
structure CpuFlags where
  dbg_pause : Bool
  dbg_global_pause : Bool
  dbg_step : Bool
  wait : Bool
  exit : Bool
deriving DecidableEq, Repr

/-- `state & s_pause_flags` where `s_pause_flags = dbg_pause + dbg_global_pause`
(line 36 of the source). -/
def anyPause (s : CpuFlags) : Bool :=
  s.dbg_pause || s.dbg_global_pause

/-- The m_btn_run clicked handler (source lines 141-168): a single atomic_op on
`cpu->state` that clears both pause flags if any is set and sets dbg_pause
otherwise, followed by `cpu->notify()` guarded by the value the lambda
returned (the post-mutation state, bound to `old` in the source).
Returns the new flag state and whether `notify()` was called. -/
def run_or_pause (state : CpuFlags) : CpuFlags × Bool :=
  let newState :=
    if anyPause state then
      { state with dbg_pause := false, dbg_global_pause := false }
    else
      { state with dbg_pause := true }
  let old := newState
  (newState, !(anyPause old))

/-- The data of a resolved cpu_thread as used by DoStep: its program counter
(`cpu->get_pc()`), its `id_type()` and its state flags. -/
structure StepCpu where
  pc : Nat
  idType : Nat
  flags : CpuFlags
deriving DecidableEq, Repr

/-- The stepping bookkeeping owned by debugger_frame: the breakpoint set held
by m_breakpoint_handler and `m_last_step_over_breakpoint` (a u64 that is
`umax` when no step-over breakpoint is pending; `none` encodes `umax`). -/
structure StepFrame where
  breakpoints : Finset ℕ
  lastStepOverBp : Option ℕ
deriving DecidableEq

/-- debugger_frame::DoStep (source lines 741-779).  `cpu` is the unit resolved
by get_cpu (`none` when no unit resolves, in which case nothing happens).
Returns the unit with its updated flags, the updated frame bookkeeping, and
whether `cpu->notify()` was called.  Note the step-over branch reproduces the
source exactly: after `AddBreakpoint(next_instruction_pc)` it calls
`RemoveBreakpoint(next_instruction_pc)` — the NEW address — whenever a
previous step-over breakpoint is still recorded. -/
def DoStep (stepOver : Bool) (cpu : Option StepCpu) (fr : StepFrame) :
    Option StepCpu × StepFrame × Bool :=
  match cpu with
  | none => (none, fr, false)
  | some c =>
    let should_step_over := stepOver && c.idType == 1
    if anyPause c.flags then
      let fr1 :=
        if should_step_over then
          let current_instruction_pc := c.pc
          let next_instruction_pc := (current_instruction_pc + 4) % 4294967296
          let bps1 := insert next_instruction_pc fr.breakpoints
          let bps2 :=
            if fr.lastStepOverBp.isSome then
              Finset.erase bps1 next_instruction_pc
            else bps1
          { breakpoints := bps2, lastStepOverBp := some next_instruction_pc }
        else fr
      let flags1 := { c.flags with dbg_pause := false, dbg_global_pause := false }
      let flags2 := if should_step_over then flags1 else { flags1 with dbg_step := true }
      (some { c with flags := flags2 }, fr1, true)
    else
      (some c, fr, false)

/-- The step-over breakpoint retirement at the top of debugger_frame::DoUpdate
(source lines 610-615): if a unit resolves, a step-over breakpoint is pending
and the pc of the unit equals it, remove that breakpoint and clear the marker.
`cpuPc` is the pc resolved through get_cpu (`none` when no unit resolves). -/
def DoUpdateRetire (cpuPc : Option ℕ) (fr : StepFrame) : StepFrame :=
  match cpuPc with
  | some pc =>
    match fr.lastStepOverBp with
    | some bp =>
      if pc = bp then
        { breakpoints := Finset.erase fr.breakpoints bp, lastStepOverBp := none }
      else fr
    | none => fr
  | none => fr

/-- The emulator lifecycle state (system_state as returned by Emu.GetStatus). -/
inductive SystemState
  | running
  | paused
  | frozen
  | ready
  | stopped
deriving DecidableEq, Repr

/-- A cpu_thread object, keyed by referent identity: its id (`cpu->id`), its
`id_type()` (1 = PPU, 2 = SPU) and its state flags. -/
structure CpuObj where
  cid : Nat
  idType : Nat
  flags : CpuFlags
deriving DecidableEq, Repr

/-- The external world consulted by get_cpu / OnSelectUnit: the cpu_thread
objects by referent identity, the idm registry lookups
(`idm::check<named_thread<ppu_thread>>` / `...<spu_thread>`, returning the
referent identity registered under an id), the current rsx singleton pointer
(`g_fxo->get<rsx::thread>()`, `none` for null) and whether a given rsx
instance has a non-null `ctrl` handle. -/
structure World where
  objs : Nat → CpuObj
  ppuCheck : Nat → Option Nat
  spuCheck : Nat → Option Nat
  rsxCurrent : Option Nat
  rsxCtrl : Nat → Bool

/-- The disassembler variant bound by OnSelectUnit (m_disasm). -/
inductive DisasmKind
  | ppuDis
  | spuDis
  | rsxDis
deriving DecidableEq, Repr

/-- The references debugger_frame holds to its selected target: `m_cpu`
(a shared_ptr<cpu_thread>, modelled by the referent identity it owns, `none`
when empty), `m_rsx` (a raw rsx::thread*, `none` for null) and `m_disasm`. -/
structure FrameState where
  m_cpu : Option Nat
  m_rsx : Option Nat
  m_disasm : Option DisasmKind
deriving DecidableEq, Repr

/-- The rsx fallback part of debugger_frame::get_cpu (source lines 417-430):
`m_rsx` is nulled if the current singleton pointer differs from it, then
nulled if its `ctrl` handle is null; the surviving pointer is returned. -/
def get_cpu_rsx (w : World) (fr : FrameState) : Option Nat × FrameState :=
  let r1 := if w.rsxCurrent = fr.m_rsx then fr.m_rsx else none
  let r2 :=
    match r1 with
    | some p => if w.rsxCtrl p then some p else none
    | none => none
  (r2, { fr with m_rsx := r2 })

/-- debugger_frame::get_cpu (source lines 406-431).  The held m_cpu is
returned unless adding `wait + exit` to its state would not change it, i.e.
unless both flags are already set; otherwise control falls through to the
rsx invalidation checks.  Returns the resolved referent identity (or none)
and the frame state (get_cpu mutates m_rsx). -/
def get_cpu (w : World) (fr : FrameState) : Option Nat × FrameState :=
  match fr.m_cpu with
  | some r =>
    if (w.objs r).flags.wait && (w.objs r).flags.exit then
      get_cpu_rsx w fr
    else
      (some r, fr)
  | none => get_cpu_rsx w fr

/-- A std::weak_ptr<cpu_thread>: the identity of its control block (`none`
for an empty weak_ptr) and whether the referent is still alive (so that
`lock()` succeeds). -/
structure WeakRef where
  refId : Option Nat
  alive : Bool
deriving DecidableEq, Repr

/-- `weak.expired()`. -/
def weakExpired (wk : WeakRef) : Bool :=
  wk.refId.isNone || !wk.alive

/-- `weak.lock()`, yielding the referent identity on success. -/
def weakLock (wk : WeakRef) : Option Nat :=
  if wk.alive then wk.refId else none

/-- The QVariant payload of a combo-box entry: nothing (the "No Thread"
entry), a weak_ptr<cpu_thread>, or a raw rsx::thread*. -/
inductive ComboData
  | noData
  | weakCpu (w : WeakRef)
  | rsxPtr (p : Nat)
deriving DecidableEq, Repr

/-- The rebuild path of debugger_frame::OnSelectUnit (source lines 564-605):
reset m_disasm/m_cpu/m_rsx, then either lock the weak reference and
re-validate its identity against the idm registry under its id (binding the
PPU or SPU disassembler on success), or — when the weak reference is expired,
as it is for an rsx entry — adopt the raw render pointer and bind the RSX
disassembler iff get_cpu validates it.  The Bool records that this path
pushes new data to the views (UpdateCPUData/DoUpdate). -/
def rebuildSelection (w : World) (weak : WeakRef) (render : Option Nat) :
    FrameState × Bool :=
  let fr0 : FrameState := { m_cpu := none, m_rsx := none, m_disasm := none }
  if weakExpired weak = false then
    match weakLock weak with
    | some r =>
      let o := w.objs r
      if o.idType = 1 then
        if w.ppuCheck o.cid = some r then
          ({ fr0 with m_cpu := some r, m_disasm := some DisasmKind.ppuDis }, true)
        else (fr0, true)
      else if o.idType = 2 then
        if w.spuCheck o.cid = some r then
          ({ fr0 with m_cpu := some r, m_disasm := some DisasmKind.spuDis }, true)
        else (fr0, true)
      else (fr0, true)
    | none => (fr0, true)
  else
    let fr1 := { fr0 with m_rsx := render }
    let res := get_cpu w fr1
    if (res.1).isSome then
      ({ res.2 with m_disasm := some DisasmKind.rsxDis }, true)
    else (res.2, true)

/-- debugger_frame::OnSelectUnit (source lines 536-606).  `count` is the
combo-box item count, `data` the payload of the current item, `emu` the cached
m_emu_state.  When the emulator is not stopped: a weak reference that is
owner-equal to the held m_cpu returns early with no mutation and no push;
an rsx pointer equal to what get_cpu resolves likewise returns early.
Otherwise the selection is rebuilt.  Returns the new frame state and whether
data was pushed to the views. -/
def OnSelectUnit (w : World) (emu : SystemState) (count : Nat)
    (data : ComboData) (fr : FrameState) : FrameState × Bool :=
  if count < 1 then
    ({ fr with m_cpu := none, m_disasm := none }, true)
  else
    let weak : WeakRef :=
      match data with
      | ComboData.weakCpu w0 => w0
      | _ => { refId := none, alive := false }
    let render : Option Nat :=
      match data with
      | ComboData.rsxPtr p => some p
      | _ => none
    if emu ≠ SystemState.stopped ∧ render = none ∧ weak.refId = fr.m_cpu then
      (fr, false)
    else if emu ≠ SystemState.stopped ∧ render.isSome then
      let res := get_cpu w fr
      if render = res.1 then (res.2, false)
      else rebuildSelection w weak render
    else
      rebuildSelection w weak render

/-- The registry snapshot read by UpdateUnitList: the global creation and
deletion tallies (cpu_thread::g_threads_created / g_threads_deleted), the
emulation state (Emu.GetStatus()), the live PPU and SPU threads in idm
enumeration order as (id, name) pairs, the rsx render pointer and whether
its ctrl handle is non-null. -/
structure RegistrySnapshot where
  g_threads_created : Nat
  g_threads_deleted : Nat
  emu_status : SystemState
  ppu_threads : List (Nat × String)
  spu_threads : List (Nat × String)
  rsx_render : Option Nat
  rsx_ctrl : Bool

/-- The "No Thread" placeholder item (NoThreadString). -/
def NoThreadString : String := "No Thread"

/-- The rsx combo-box item label (source line 526). -/
def RSXItemString : String := "RSX[0x55555555]"

/-- The combo-box contents UpdateUnitList rebuilds (source lines 514-529):
the placeholder, then — unless the emulation is stopped, in which case
on_select returns before adding anything — every PPU thread then every SPU
thread by name, then the rsx item iff the emulation is not stopped and the
render pointer is non-null with a non-null ctrl handle. -/
def buildUnitList (r : RegistrySnapshot) : List String :=
  [NoThreadString]
    ++ (if r.emu_status = SystemState.stopped then []
        else r.ppu_threads.map Prod.snd ++ r.spu_threads.map Prod.snd)
    ++ (if r.emu_status ≠ SystemState.stopped ∧ r.rsx_render.isSome ∧ r.rsx_ctrl then
          [RSXItemString]
        else [])

/-- The mutable state UpdateUnitList owns: the three cached change-detection
values (m_threads_created, m_threads_deleted, m_emu_state) and the visible
item list of m_choice_units. -/
structure UnitListState where
  m_threads_created : Nat
  m_threads_deleted : Nat
  m_emu_state : SystemState
  items : List String
deriving DecidableEq, Repr

/-- debugger_frame::UpdateUnitList (source lines 482-534): if none of the
three counters/states differs from the cached values the function returns
immediately ("Nothing to do"); otherwise it refreshes the cache and rebuilds
the item list from the registry snapshot. -/
def UpdateUnitList (r : RegistrySnapshot) (s : UnitListState) : UnitListState :=
  if r.g_threads_created ≠ s.m_threads_created ∨
     r.g_threads_deleted ≠ s.m_threads_deleted ∨
     r.emu_status ≠ s.m_emu_state then
    { m_threads_created := r.g_threads_created
      m_threads_deleted := r.g_threads_deleted
      m_emu_state := r.emu_status
      items := buildUnitList r }
  else s

/-- Whether a character matches the class `[A-Fa-f0-9]`. -/
def isHexDigitCh (c : Char) : Bool :=
  (decide ('0' ≤ c) && decide (c ≤ '9')) ||
  (decide ('a' ≤ c) && decide (c ≤ 'f')) ||
  (decide ('A' ≤ c) && decide (c ≤ 'F'))

/-- `QRegExp("^[A-Fa-f0-9]+$").exactMatch`: non-empty and all hex digits. -/
def isHexOnly (cs : List Char) : Bool :=
  !cs.isEmpty && cs.all isHexDigitCh

/-- The numeric value of a hex digit. -/
def hexDigitVal (c : Char) : Nat :=
  if decide ('0' ≤ c) && decide (c ≤ '9') then c.toNat - '0'.toNat
  else if decide ('a' ≤ c) && decide (c ≤ 'f') then c.toNat - 'a'.toNat + 10
  else c.toNat - 'A'.toNat + 10

/-- Accumulate hex digits left to right; fails on the first non-hex char. -/
def hexAccum : List Char → Nat → Option Nat
  | [], acc => some acc
  | c :: cs, acc =>
    if isHexDigitCh c then hexAccum cs (acc * 16 + hexDigitVal c) else none

/-- Modelled from the Qt library call QString::toULong with base 16 (an external library
call): an optional `0x`/`0X` prefix followed by at least one hex digit,
with the whole string consumed and the value within the unsigned 64-bit
range; `none` models `ok == false`. -/
def qtToULong16 : List Char → Option Nat
  | cs =>
    let body :=
      match cs with
      | '0' :: c :: rest => if c = 'x' ∨ c = 'X' then rest else cs
      | _ => cs
    match body with
    | [] => none
    | _ =>
      match hexAccum body 0 with
      | some v => if v < 18446744073709551616 then some v else none
      | none => none

/-- The fixed expression of EvaluateExpression (source line 714): prepend
`0x` when the text exactly matches `^[A-Fa-f0-9]+$`. -/
def fixedExpression (cs : List Char) : List Char :=
  if isHexOnly cs then '0' :: 'x' :: cs else cs

/-- debugger_frame::EvaluateExpression (source lines 709-720).  `cpuPc` is
`thread->get_pc()` for the unit get_cpu resolves (`none` when no unit
resolves).  On parse success the parsed value is returned; on failure the
current pc; with no unit, 0. -/
def EvaluateExpression (cpuPc : Option Nat) (expression : String) : Nat :=
  match qtToULong16 (fixedExpression expression.data) with
  | some res => res
  | none =>
    match cpuPc with
    | some pc => pc
    | none => 0

/-- UINT32_MAX, the "no target" sentinel of op_branch_targets. -/
def U32MAX : Nat := 4294967295

/-- The virtual-memory interface consulted by the Key_N handler for a PPU
unit: `vm::check_addr(pc, vm::page_executable)`, whether
`vm::try_access(pc, &op, 4, false)` succeeds, and the instruction word read. -/
structure VmState where
  page_executable : Nat → Bool
  try_access_ok : Nat → Bool
  mem : Nat → Nat

/-- The `res` array computed by the Key_N handler (source lines 360-379),
initialized to {UINT32_MAX, UINT32_MAX}: for an SPU unit (id_type 2) the SPU
predictor runs on the word read from local storage; for a PPU unit
(id_type 1) the PPU predictor runs only if the address is mapped executable
and the 4-byte read succeeds; any other kind leaves the array untouched.
`ppuTargets`/`spuTargets` stand for op_branch_targets (an external service);
a component equal to U32MAX means no candidate. -/
def keyN_res (idType : Nat) (vm : VmState)
    (ppuTargets spuTargets : Nat → Nat → Nat × Nat) (spuLs : Nat → Nat)
    (pc : Nat) : Nat × Nat :=
  if idType = 2 then spuTargets pc (spuLs pc)
  else if idType = 1 then
    if vm.page_executable pc && vm.try_access_ok pc then
      ppuTargets pc (vm.mem pc)
    else (U32MAX, U32MAX)
  else (U32MAX, U32MAX)

/-- u32 wrapping subtraction. -/
def u32sub (a b : Nat) : Nat :=
  (a % 4294967296 + 4294967296 - b % 4294967296) % 4294967296

/-- The navigation decision of the Key_N handler (source lines 381-382):
`find_last_not_of(UINT32_MAX)` over the two-entry array — preferring the
second entry (the known branch target) over the first — and, when a
candidate exists, the address shown (`res[pos] - max(i, 0) * 4` in u32
arithmetic, `i` being the selected row).  `none` means no navigation. -/
def keyN_nav (res : Nat × Nat) (i : Nat) : Option Nat :=
  if res.2 ≠ U32MAX then some (u32sub res.2 (i * 4))
  else if res.1 ≠ U32MAX then some (u32sub res.1 (i * 4))
  else none

/-- A flag state paused for the debugger (dbg_pause set). -/
def pausedFlags : CpuFlags :=
  { dbg_pause := true, dbg_global_pause := false, dbg_step := false,
    wait := false, exit := false }

/-- A flag state with no pause flag set. -/
def runningFlags : CpuFlags :=
  { dbg_pause := false, dbg_global_pause := false, dbg_step := false,
    wait := false, exit := false }

/-- A flag state of a unit that acknowledged exit: wait and exit both set. -/
def goneFlags : CpuFlags :=
  { dbg_pause := false, dbg_global_pause := false, dbg_step := false,
    wait := true, exit := true }

/-- A PPU unit paused at pc 0x1000. -/
def c1_cpu : StepCpu := { pc := 4096, idType := 1, flags := pausedFlags }

/-- Frame bookkeeping with a previous step-over breakpoint still pending at
0x2000 (an address a prior stepped-over branch never returned to). -/
def c1_frame : StepFrame := { breakpoints := {8192}, lastStepOverBp := some 8192 }

/-- An SPU unit paused at pc 0x1000. -/
def c3_cpu_paused : StepCpu := { pc := 4096, idType := 2, flags := pausedFlags }

/-- An SPU unit with no pause flag set. -/
def c3_cpu_running : StepCpu := { pc := 4096, idType := 2, flags := runningFlags }

/-- Frame bookkeeping with one user breakpoint and no pending step-over. -/
def c3_frame : StepFrame := { breakpoints := {4660}, lastStepOverBp := none }

/-- Frame bookkeeping with a pending step-over breakpoint at 0x1004. -/
def c4_frame : StepFrame :=
  { breakpoints := {4100, 8192}, lastStepOverBp := some 4100 }

/-- A world where every cpu object has wait and exit set and a valid rsx
singleton lives at identity 7. -/
def c5_world : World :=
  { objs := fun _ => { cid := 1, idType := 1, flags := goneFlags },
    ppuCheck := fun _ => none, spuCheck := fun _ => none,
    rsxCurrent := some 7, rsxCtrl := fun _ => true }

/-- A frame holding a cpu reference (identity 5) and no rsx pointer. -/
def c5_frame_cpu : FrameState :=
  { m_cpu := some 5, m_rsx := none, m_disasm := some DisasmKind.ppuDis }

/-- A frame holding only the rsx pointer with identity 7. -/
def c5_frame_rsx : FrameState :=
  { m_cpu := none, m_rsx := some 7, m_disasm := some DisasmKind.rsxDis }

/-- A registry snapshot whose counters advanced (6 created, 3 deleted) while
the same single PPU thread is live and the emulation keeps running. -/
def c6_registry : RegistrySnapshot :=
  { g_threads_created := 6, g_threads_deleted := 3,
    emu_status := SystemState.running,
    ppu_threads := [(16777217, "PPU[0x1000001] main_thread")],
    spu_threads := [], rsx_render := none, rsx_ctrl := false }

/-- The cached state of the previous poll: counters 5/2, same live thread, so
its item list coincides with what the new snapshot would rebuild. -/
def c6_cached : UnitListState :=
  { m_threads_created := 5, m_threads_deleted := 2,
    m_emu_state := SystemState.running, items := buildUnitList c6_registry }

/-- The same snapshot with counters matching the cache (nothing happened). -/
def c6_registry_clean : RegistrySnapshot :=
  { c6_registry with g_threads_created := 5, g_threads_deleted := 2 }

/-- The same snapshot after the emulation stopped. -/
def c6_registry_stop : RegistrySnapshot :=
  { c6_registry with emu_status := SystemState.stopped }

/-- A world for the reselection scenario (contents irrelevant to the early
return path). -/
def c7_world : World :=
  { objs := fun _ => { cid := 1, idType := 1, flags := pausedFlags },
    ppuCheck := fun _ => none, spuCheck := fun _ => none,
    rsxCurrent := none, rsxCtrl := fun _ => false }

/-- A live weak reference to the unit with identity 3. -/
def c7_weak : WeakRef := { refId := some 3, alive := true }

/-- A frame already bound to the unit with identity 3. -/
def c7_frame : FrameState :=
  { m_cpu := some 3, m_rsx := none, m_disasm := some DisasmKind.ppuDis }

/-- A virtual memory state mapping no address as executable. -/
def c9_vm : VmState :=
  { page_executable := fun _ => false, try_access_ok := fun _ => true,
    mem := fun _ => 0 }

/-- Claim C1: evaluating DoStep(over = true) on a PPU unit paused at pc
0x1000 while a previous step-over breakpoint is still pending at 0x2000.
The source adds a breakpoint at 0x1004 and then, because a previous pending
breakpoint exists, calls RemoveBreakpoint on the NEWLY computed address
0x1004 instead of on the previous address 0x2000 — contradicting its own
comment ("Undefine previous step over breakpoint").  The resulting
breakpoint set therefore still contains 0x2000 and no longer contains
0x1004, while 0x1004 is recorded as the pending step-over breakpoint. -/
theorem C1_step_over_removes_new_breakpoint :
    (DoStep true (some c1_cpu) c1_frame).2.1.breakpoints = ({8192} : Finset ℕ) ∧
    4100 ∉ (DoStep true (some c1_cpu) c1_frame).2.1.breakpoints ∧
    (DoStep true (some c1_cpu) c1_frame).2.1.lastStepOverBp = some 4100 := by
  decide

/-- Claim C2: the run/pause toggle clears both pause flags when any is set
and sets dbg_pause otherwise, and the notify call fires if and only if the
mutation transitions the flags from some pause flag set to none set (so a
wake is issued at most once per such transition and never when pausing). -/
theorem C2_run_or_pause_toggle (s : CpuFlags) :
    (anyPause s = true →
       (run_or_pause s).1 = { s with dbg_pause := false, dbg_global_pause := false }) ∧
    (anyPause s = false → (run_or_pause s).1 = { s with dbg_pause := true }) ∧
    ((run_or_pause s).2 = true ↔
       (anyPause s = true ∧ anyPause (run_or_pause s).1 = false)) := by
  rcases s with ⟨p, g, st, w, e⟩
  cases p <;> cases g <;> simp [run_or_pause, anyPause]

/-- Witness for C2 at a paused and at a running flag state. -/
theorem C2_run_or_pause_toggle_witness :
    (run_or_pause pausedFlags).1 =
      { pausedFlags with dbg_pause := false, dbg_global_pause := false } ∧
    (run_or_pause runningFlags).1 = { runningFlags with dbg_pause := true } ∧
    ((run_or_pause pausedFlags).2 = true ↔
       (anyPause pausedFlags = true ∧ anyPause (run_or_pause pausedFlags).1 = false)) :=
  ⟨(C2_run_or_pause_toggle pausedFlags).1 (by decide),
   (C2_run_or_pause_toggle runningFlags).2.1 (by decide),
   (C2_run_or_pause_toggle pausedFlags).2.2⟩

/-- Claim C3: a plain single step (over = false) on a unit with a pause flag
set clears dbg_pause and dbg_global_pause, sets dbg_step and notifies the
unit, leaving the breakpoint bookkeeping untouched; on a unit with no pause
flag set it changes nothing and does not notify. -/
theorem C3_plain_step (c : StepCpu) (fr : StepFrame) :
    (anyPause c.flags = true →
       DoStep false (some c) fr =
         (some { c with flags :=
             { c.flags with dbg_pause := false, dbg_global_pause := false, dbg_step := true } },
          fr, true)) ∧
    (anyPause c.flags = false → DoStep false (some c) fr = (some c, fr, false)) := by
  constructor <;> intro h <;> simp [DoStep, h]

/-- Witness for C3 at a paused and at a running SPU unit. -/
theorem C3_plain_step_witness :
    DoStep false (some c3_cpu_paused) c3_frame =
      (some { c3_cpu_paused with flags :=
          { c3_cpu_paused.flags with dbg_pause := false, dbg_global_pause := false, dbg_step := true } },
       c3_frame, true) ∧
    DoStep false (some c3_cpu_running) c3_frame = (some c3_cpu_running, c3_frame, false) :=
  ⟨(C3_plain_step c3_cpu_paused c3_frame).1 (by decide),
   (C3_plain_step c3_cpu_running c3_frame).2 (by decide)⟩

/-- Claim C4: on a state poll, when a step-over breakpoint is pending and
its address equals the current pc of the resolved unit, DoUpdate removes
that breakpoint and clears the pending marker; in every other case (no
pending marker, no resolved unit, or a differing pc) the poll leaves the
frame — in particular the marker and the breakpoint entry — unchanged. -/
theorem C4_step_over_retirement (cpuPc : Option ℕ) (fr : StepFrame) :
    (∀ pc bp, cpuPc = some pc → fr.lastStepOverBp = some bp → pc = bp →
       DoUpdateRetire cpuPc fr =
         { breakpoints := Finset.erase fr.breakpoints bp, lastStepOverBp := none }) ∧
    ((∀ bp, fr.lastStepOverBp = some bp → cpuPc ≠ some bp) →
       DoUpdateRetire cpuPc fr = fr) := by
  constructor
  · rintro pc bp rfl hbp rfl
    simp [DoUpdateRetire, hbp]
  · intro h
    rcases hcp : cpuPc with _ | pc
    · simp [DoUpdateRetire]
    · rcases hlb : fr.lastStepOverBp with _ | bp
      · simp [DoUpdateRetire, hlb]
      · have hne : pc ≠ bp := by
          intro hEq
          exact h bp hlb (by rw [hcp, hEq])
        simp [DoUpdateRetire, hlb, hne]

/-- Witness for C4: retirement fires at pc 0x1004 and is a no-op at 0x1000. -/
theorem C4_step_over_retirement_witness :
    DoUpdateRetire (some 4100) c4_frame =
      { breakpoints := Finset.erase c4_frame.breakpoints 4100, lastStepOverBp := none } ∧
    DoUpdateRetire (some 4096) c4_frame = c4_frame :=
  ⟨(C4_step_over_retirement (some 4100) c4_frame).1 4100 4100 rfl rfl rfl,
   (C4_step_over_retirement (some 4096) c4_frame).2
     (fun bp hbp => by
        injection hbp with h
        subst h
        decide)⟩

/-- Claim C5: get_cpu resolves to no unit when the held cpu reference has
both the wait and exit flags set (and no rsx pointer is held, as is the
frame invariant whenever m_cpu is bound); and, when only the rsx pointer is
held, it resolves to that unit exactly when the current registry singleton
equals the held pointer and the ctrl handle of that instance is non-null,
and to no unit otherwise. -/
theorem C5_get_cpu_validity (w : World) (fr : FrameState) :
    (∀ r, fr.m_cpu = some r → (w.objs r).flags.wait = true →
       (w.objs r).flags.exit = true → fr.m_rsx = none →
       (get_cpu w fr).1 = none) ∧
    (∀ p, fr.m_cpu = none → fr.m_rsx = some p →
       (get_cpu w fr).1 =
         if w.rsxCurrent = some p ∧ w.rsxCtrl p = true then some p else none) := by
  constructor
  · rintro r hc hw he hr
    simp [get_cpu, get_cpu_rsx, hc, hw, he, hr]
  · rintro p hc hr
    by_cases h1 : w.rsxCurrent = some p <;> by_cases h2 : w.rsxCtrl p <;>
      simp [get_cpu, get_cpu_rsx, hc, hr, h1, h2]

/-- Witness for C5: a dead held cpu resolves to none; a held rsx pointer
matching the singleton with non-null ctrl resolves to it. -/
theorem C5_get_cpu_validity_witness :
    (get_cpu c5_world c5_frame_cpu).1 = none ∧
    (get_cpu c5_world c5_frame_rsx).1 =
      (if c5_world.rsxCurrent = some 7 ∧ c5_world.rsxCtrl 7 = true then some 7 else none) :=
  ⟨(C5_get_cpu_validity c5_world c5_frame_cpu).1 5 rfl rfl rfl rfl,
   (C5_get_cpu_validity c5_world c5_frame_rsx).2 7 rfl rfl⟩

/-- Counterexample to claim C6 as stated: between two polls one thread was
created and deleted again, so both counters advanced, yet the rebuilt item
list is identical to the cached one — the visible list did not change even
though the counters differ, refuting the left-to-right direction of the
claimed equivalence. -/
theorem C6_visible_change_counterexample :
    (c6_registry.g_threads_created ≠ c6_cached.m_threads_created ∨
     c6_registry.g_threads_deleted ≠ c6_cached.m_threads_deleted ∨
     c6_registry.emu_status ≠ c6_cached.m_emu_state) ∧
    (UpdateUnitList c6_registry c6_cached).items = c6_cached.items := by
  constructor
  · decide
  · rfl

/-- Claim C6 (amended): UpdateUnitList rebuilds the list and refreshes the
cache if and only if the created counter, the deleted counter or the
emulation state differs from the cached values; when all three are unchanged
the call is a no-op returning the state untouched; consequently the visible
list can change only when one of the three differs (a rebuild may reproduce
an identical list). -/
theorem C6_refresh_dirty_check (r : RegistrySnapshot) (s : UnitListState) :
    (r.g_threads_created = s.m_threads_created ∧
     r.g_threads_deleted = s.m_threads_deleted ∧
     r.emu_status = s.m_emu_state → UpdateUnitList r s = s) ∧
    (¬(r.g_threads_created = s.m_threads_created ∧
       r.g_threads_deleted = s.m_threads_deleted ∧
       r.emu_status = s.m_emu_state) →
       UpdateUnitList r s =
         { m_threads_created := r.g_threads_created
           m_threads_deleted := r.g_threads_deleted
           m_emu_state := r.emu_status
           items := buildUnitList r }) ∧
    ((UpdateUnitList r s).items ≠ s.items →
       ¬(r.g_threads_created = s.m_threads_created ∧
         r.g_threads_deleted = s.m_threads_deleted ∧
         r.emu_status = s.m_emu_state)) := by
  by_cases h : r.g_threads_created = s.m_threads_created ∧
      r.g_threads_deleted = s.m_threads_deleted ∧ r.emu_status = s.m_emu_state
  · have hcond : ¬(r.g_threads_created ≠ s.m_threads_created ∨
        r.g_threads_deleted ≠ s.m_threads_deleted ∨
        r.emu_status ≠ s.m_emu_state) := by tauto
    have hupd : UpdateUnitList r s = s := by
      simp only [UpdateUnitList, if_neg hcond]
    exact ⟨fun _ => hupd, fun hn => absurd h hn,
      fun hitems => absurd (by rw [hupd]) hitems⟩
  · have hcond : r.g_threads_created ≠ s.m_threads_created ∨
        r.g_threads_deleted ≠ s.m_threads_deleted ∨
        r.emu_status ≠ s.m_emu_state := by tauto
    have hupd : UpdateUnitList r s =
        { m_threads_created := r.g_threads_created
          m_threads_deleted := r.g_threads_deleted
          m_emu_state := r.emu_status
          items := buildUnitList r } := by
      simp only [UpdateUnitList, if_pos hcond]
    exact ⟨fun hall => absurd hall h, fun _ => hupd, fun _ => h⟩

/-- Witness for the amended C6: the clean snapshot is a no-op, the advanced
one rebuilds, and a stop transition that visibly changes the list implies
one of the three values differed. -/
theorem C6_refresh_dirty_check_witness :
    UpdateUnitList c6_registry_clean c6_cached = c6_cached ∧
    UpdateUnitList c6_registry c6_cached =
      { m_threads_created := c6_registry.g_threads_created
        m_threads_deleted := c6_registry.g_threads_deleted
        m_emu_state := c6_registry.emu_status
        items := buildUnitList c6_registry } ∧
    ¬(c6_registry_stop.g_threads_created = c6_cached.m_threads_created ∧
      c6_registry_stop.g_threads_deleted = c6_cached.m_threads_deleted ∧
      c6_registry_stop.emu_status = c6_cached.m_emu_state) :=
  ⟨(C6_refresh_dirty_check c6_registry_clean c6_cached).1 (by decide),
   (C6_refresh_dirty_check c6_registry c6_cached).2.1 (by decide),
   (C6_refresh_dirty_check c6_registry_stop c6_cached).2.2 (by decide)⟩

/-- Claim C7: selecting a unit whose weak reference is owner-equal to the
currently bound m_cpu while the emulator is not stopped returns before any
mutation: the frame state (including the bound disassembler) is unchanged
and nothing is pushed to the views. -/
theorem C7_redundant_reselect_noop (w : World) (emu : SystemState) (count : Nat)
    (w0 : WeakRef) (fr : FrameState) (hc : 1 ≤ count)
    (he : emu ≠ SystemState.stopped) (hid : w0.refId = fr.m_cpu) :
    OnSelectUnit w emu count (ComboData.weakCpu w0) fr = (fr, false) := by
  have h1 : ¬ count < 1 := by omega
  simp [OnSelectUnit, if_neg h1, he, hid]
  omega

/-- Witness for C7: reselecting unit 3 while running changes nothing. -/
theorem C7_redundant_reselect_noop_witness :
    OnSelectUnit c7_world SystemState.running 1 (ComboData.weakCpu c7_weak) c7_frame =
      (c7_frame, false) :=
  C7_redundant_reselect_noop c7_world SystemState.running 1 c7_weak c7_frame
    (by decide) (by decide) rfl

/-- Claim C8: a hex-digit-only address text evaluates to the same address as
the same text with a 0x prefix (both "1004" and "0x1004" yield 0x1004), and
any text whose fixed expression fails to parse as hexadecimal falls back to
the current program counter of the resolved unit. -/
theorem C8_hex_with_or_without_marker :
    (∀ cpuPc : Option Nat, ∀ s : String, isHexOnly s.data = true →
       EvaluateExpression cpuPc s = EvaluateExpression cpuPc ("0x" ++ s)) ∧
    (∀ pc : Nat, EvaluateExpression (some pc) "1004" = 4100 ∧
       EvaluateExpression (some pc) "0x1004" = 4100) ∧
    (∀ pc : Nat, ∀ s : String, qtToULong16 (fixedExpression s.data) = none →
       EvaluateExpression (some pc) s = pc) := by
  have hdata : ∀ s : String, ("0x" ++ s).data = '0' :: 'x' :: s.data := fun _ => rfl
  have hxf : ∀ l : List Char, isHexOnly ('0' :: 'x' :: l) = false := fun _ => rfl
  refine ⟨fun cpuPc s hs => ?_, fun pc => ⟨rfl, rfl⟩, fun pc s hfail => ?_⟩
  · unfold EvaluateExpression fixedExpression
    rw [hdata s, hs, hxf s.data]
    simp
  · simp [EvaluateExpression, hfail]

/-- Witness for C8 at the concrete texts of the claim plus a malformed one. -/
theorem C8_hex_with_or_without_marker_witness :
    EvaluateExpression (some 5) "1004" = EvaluateExpression (some 5) ("0x" ++ "1004") ∧
    EvaluateExpression (some 7) "1004" = 4100 ∧
    EvaluateExpression (some 9) "hello" = 9 :=
  ⟨C8_hex_with_or_without_marker.1 (some 5) "1004" (by decide),
   (C8_hex_with_or_without_marker.2.1 7).1,
   C8_hex_with_or_without_marker.2.2 9 "hello" (by decide)⟩

/-- Claim C9: the Key_N navigation does nothing when the predictor yields no
candidate (both result slots still UINT32_MAX), and for a PPU unit an
address that is not mapped as accessible executable memory yields no
prediction and no navigation; the result is then independent of the memory
contents and of the try_access outcome, i.e. no instruction memory is read. -/
theorem C9_unpredictable_no_navigation (vm : VmState)
    (ppuTargets spuTargets : Nat → Nat → Nat × Nat) (spuLs : Nat → Nat)
    (pc i : Nat) :
    (∀ j, keyN_nav (U32MAX, U32MAX) j = none) ∧
    (vm.page_executable pc = false →
       keyN_res 1 vm ppuTargets spuTargets spuLs pc = (U32MAX, U32MAX) ∧
       keyN_nav (keyN_res 1 vm ppuTargets spuTargets spuLs pc) i = none ∧
       (∀ ta mem2, keyN_res 1 { vm with try_access_ok := ta, mem := mem2 }
           ppuTargets spuTargets spuLs pc = (U32MAX, U32MAX))) := by
  refine ⟨fun j => by simp [keyN_nav], fun h => ⟨?_, ?_, fun ta mem2 => ?_⟩⟩
  · simp [keyN_res, h]
  · simp [keyN_res, keyN_nav, h]
  · simp [keyN_res, h]

/-- Witness for C9 at a memory state with no executable pages. -/
theorem C9_unpredictable_no_navigation_witness :
    keyN_nav (U32MAX, U32MAX) 3 = none ∧
    keyN_res 1 c9_vm (fun a _ => (a, a)) (fun a _ => (a, a)) (fun _ => 0) 4096 =
      (U32MAX, U32MAX) :=
  ⟨(C9_unpredictable_no_navigation c9_vm (fun a _ => (a, a)) (fun a _ => (a, a))
      (fun _ => 0) 4096 0).1 3,
   ((C9_unpredictable_no_navigation c9_vm (fun a _ => (a, a)) (fun a _ => (a, a))
      (fun _ => 0) 4096 0).2 rfl).1⟩

/-- Claim C10: when the address text fails to parse as hexadecimal and no
unit resolves, EvaluateExpression returns 0. -/
theorem C10_malformed_no_unit_zero (s : String)
    (h : qtToULong16 (fixedExpression s.data) = none) :
    EvaluateExpression none s = 0 := by
  simp [EvaluateExpression, h]

/-- Witness for C10 at a malformed text. -/
theorem C10_malformed_no_unit_zero_witness :
    EvaluateExpression none "zz" = 0 :=
  C10_malformed_no_unit_zero "zz" (by decide)

end DebuggerFrame
